import Mathlib

/-!
Shallow embedding of the llmock protocol-emulation core (Python package
`llmock`): the two routers `llmock/routers/chat.py` and
`llmock/routers/responses.py`, the mirror strategies in
`llmock/strategies/content_mirror.py`, and the request schemas they consume.

Python strings are embedded as `List Char`; Python `None`-able strings as
`Option (List Char)`; random sources (the 128 bits `uuid.uuid4` draws) as
natural numbers below `2 ^ 128`; clock reads as an explicit `Nat` parameter.
Every function is a direct transliteration of the corresponding Python
function, with the source construct noted in a comment where the
transliteration is not word for word.
-/

namespace LLMock

/-- Python `str` as a list of characters. -/
abbrev Str := List Char

/-- Python truthiness of an optional string: `None` and `""` are falsy. -/
def strTruthy : Option Str → Bool
  | none => false
  | some s => !s.isEmpty

/-- Python `text.split(" ")` with a one-character separator: splits on every
single space, preserving empty segments (so the result is never `[]`;
`"".split(" ") == [""]`). -/
def pySplitSpace : Str → List Str
  | [] => [[]]
  | c :: cs =>
    if c = ' ' then [] :: pySplitSpace cs
    else
      match pySplitSpace cs with
      | [] => [[c]]
      | w :: ws => (c :: w) :: ws

/-- The word count used by the streaming sequencers:
`len(response_content.split(" "))`. -/
def wordCount (text : Str) : Nat := (pySplitSpace text).length

/-- The per-word delta of both streaming generators:
`for i, word in enumerate(words): word if i == 0 else " " + word`
(the first word verbatim, every later word with one leading space).
`pySplitSpace` never returns `[]`, so the `[]` branch is dead code kept
only for totality. -/
def addSpaces : List Str → List Str
  | [] => []
  | w :: ws => w :: ws.map (fun v => ' ' :: v)

/-- Python `" ".join(texts)`. -/
def spaceJoin (texts : List Str) : Str := List.intercalate " ".data texts

/-- An apostrophe (U+0027), built from its code point so the source file
never carries a bare quote character. -/
def apos : Char := Char.ofNat 39

/-! ### uuid, shared by both routers

`uuid.uuid4().hex` is the 32-digit lowercase hex string of a 128-bit value
built from 16 random bytes with the RFC 4122 version/variant bits forced:
the version nibble (big-endian hex digit 12) becomes `4`, and the top two
bits of the variant nibble (big-endian hex digit 16) become `10`, keeping
that nibble's low two bits.  We embed this at the nibble level: `nib r i` is
big-endian nibble `i` of the 128-bit random source `r`, and `uuidNib`
applies the forcing. -/

/-- Big-endian hex digit `i` (of 32) of the 128-bit random source. -/
def nib (r i : Nat) : Nat := (r / 16 ^ (31 - i)) % 16

/-- Hex digit `i` of `uuid.uuid4().hex` as a function of the random source:
digit 12 is the version nibble (always 4), digit 16 the variant nibble
(top bits forced to `10`, i.e. `8 + low-two-bits`). -/
def uuidNib (r i : Nat) : Nat :=
  if i = 12 then 4
  else if i = 16 then 8 + nib r 16 % 4
  else nib r i

/-- Lowercase hex digit characters, as Python `%x` formatting produces. -/
def hexChar (n : Nat) : Char := "0123456789abcdef".data.getD n 'x'

/-- `uuid.uuid4().hex` as a function of the 128-bit random source. -/
def uuid4hex (r : Nat) : Str := (List.range 32).map (fun i => hexChar (uuidNib r i))

/-! ### Error payload shared by both routers (`validate_model`) -/

/-- The `detail["error"]` object of the 404 raised by `validate_model`. -/
structure ErrorBody where
  message : Str
  type : Str
  param : Str
  code : Str
  deriving DecidableEq, Repr

/-- The `HTTPException` raised by `validate_model`: status code plus the
structured error payload. -/
structure HttpError where
  status_code : Nat
  error : ErrorBody
  deriving DecidableEq, Repr

/-- The model-not-found error value:
status 404, message `The model '<id>' does not exist`,
type `invalid_request_error`, param `model`, code `model_not_found`. -/
def modelNotFound (model_id : Str) : HttpError :=
  { status_code := 404
    error :=
      { message := "The model ".data ++ [apos] ++ model_id ++ [apos] ++ " does not exist".data
        type := "invalid_request_error".data
        param := "model".data
        code := "model_not_found".data } }

/-- One entry of the configured `models` list (only its `"id"` key is read
by the routers). -/
structure ModelEntry where
  id : Str
  deriving DecidableEq, Repr

/-- The part of `Config` the routers read: `config.get("models", [])`. -/
structure Config where
  models : List ModelEntry
  deriving DecidableEq, Repr

namespace Chat

/-! ### `llmock/schemas/chat.py` -/

/-- `role` literal of `ChatMessageRequest`. -/
inductive Role
  | system | user | assistant | tool
  deriving DecidableEq, Repr

/-- `ChatMessageRequest`: role plus optional content. -/
structure ChatMessageRequest where
  role : Role
  content : Option Str
  deriving DecidableEq, Repr

/-- `ChatCompletionRequest` (the sampling parameters `temperature` and
`max_tokens` are never read by the router logic under verification and are
omitted from the embedding). -/
structure ChatCompletionRequest where
  model : Str
  messages : List ChatMessageRequest
  stream : Bool
  deriving DecidableEq, Repr

/-! ### `llmock/strategies/content_mirror.py`, `ChatMirrorStrategy` -/

/-- The loop body of `ChatMirrorStrategy.generate_response`, already over the
reversed message list: return the content of the first message with
`role == "user"` and truthy (non-`None`, non-empty) content. -/
def mirrorScan : List ChatMessageRequest → Option Str
  | [] => none
  | m :: rest =>
    if m.role = Role.user ∧ strTruthy m.content then some (m.content.getD [])
    else mirrorScan rest

/-- `ChatMirrorStrategy.generate_response`: last user message with truthy
content, else the fixed default sentinel. -/
def ChatMirrorStrategy.generate_response (request : ChatCompletionRequest) : Str :=
  match mirrorScan request.messages.reverse with
  | some s => s
  | none => "No user message provided.".data

/-! ### `llmock/routers/chat.py` -/

/-- `get_models_config` / `validate_model`: accept every id when the
configured list is empty; otherwise 404 when the id is absent. -/
def validate_model (model_id : Str) (config : Config) : Except HttpError Unit :=
  let model_ids := config.models.map (·.id)
  if model_ids ≠ [] ∧ model_id ∉ model_ids then .error (modelNotFound model_id)
  else .ok ()

/-- `generate_completion_id`: `"chatcmpl-" + uuid.uuid4().hex[:24]`. -/
def generate_completion_id (r : Nat) : Str :=
  "chatcmpl-".data ++ (uuid4hex r).take 24

/-- `estimate_tokens`: `max(1, len(text) // 4)`. -/
def estimate_tokens (text : Str) : Nat := max 1 (text.length / 4)

/-- The prompt text of `create_non_streaming_response`:
`" ".join(msg.content or "" for msg in request.messages if msg.content)`. -/
def prompt_text (request : ChatCompletionRequest) : Str :=
  spaceJoin ((request.messages.filter (fun m => strTruthy m.content)).map
    (fun m => m.content.getD []))

/-- `CompletionUsage` (from `openai.types`). -/
structure CompletionUsage where
  prompt_tokens : Nat
  completion_tokens : Nat
  total_tokens : Nat
  deriving DecidableEq, Repr

/-- `ChatCompletionMessage`: the assistant message of the single choice. -/
structure ChatCompletionMessage where
  role : Str
  content : Str
  deriving DecidableEq, Repr

/-- `Choice` of a non-streaming `ChatCompletion`. -/
structure Choice where
  index : Nat
  message : ChatCompletionMessage
  finish_reason : Option Str
  deriving DecidableEq, Repr

/-- `ChatCompletion`: the non-streaming response object. -/
structure ChatCompletion where
  id : Str
  created : Nat
  model : Str
  object : Str
  choices : List Choice
  usage : CompletionUsage
  deriving DecidableEq, Repr

/-- `create_non_streaming_response` (`r` the id generator's random source,
`t` the clock read `int(time.time())`). -/
def create_non_streaming_response (r t : Nat) (request : ChatCompletionRequest)
    (response_content : Str) : ChatCompletion :=
  let prompt_tokens := estimate_tokens (prompt_text request)
  let completion_tokens := estimate_tokens response_content
  { id := generate_completion_id r
    created := t
    model := request.model
    object := "chat.completion".data
    choices :=
      [{ index := 0
         message := { role := "assistant".data, content := response_content }
         finish_reason := some "stop".data }]
    usage :=
      { prompt_tokens := prompt_tokens
        completion_tokens := completion_tokens
        total_tokens := prompt_tokens + completion_tokens } }

/-- `ChoiceDelta` of a streamed chunk. -/
structure ChoiceDelta where
  role : Option Str
  content : Option Str
  deriving DecidableEq, Repr

/-- `Choice` of a streamed `ChatCompletionChunk`. -/
structure ChunkChoice where
  index : Nat
  delta : ChoiceDelta
  finish_reason : Option Str
  deriving DecidableEq, Repr

/-- `ChatCompletionChunk`: one streamed JSON frame. -/
structure ChatCompletionChunk where
  id : Str
  created : Nat
  model : Str
  object : Str
  choices : List ChunkChoice
  deriving DecidableEq, Repr

/-- One emitted SSE line of the chat streaming generator: either a
`data: <json chunk>` line or the literal `data: [DONE]` sentinel. -/
inductive SSELine
  | data (chunk : ChatCompletionChunk)
  | done
  deriving DecidableEq, Repr

/-- A word chunk of `generate_streaming_response`: carries only the delta
content, no role, no finish reason. -/
def wordChunk (cid : Str) (t : Nat) (model : Str) (delta : Str) : ChatCompletionChunk :=
  { id := cid
    created := t
    model := model
    object := "chat.completion.chunk".data
    choices :=
      [{ index := 0
         delta := { role := none, content := some delta }
         finish_reason := none }] }

/-- The first chunk of `generate_streaming_response`: announces the
assistant role with empty content. -/
def firstChunk (cid : Str) (t : Nat) (model : Str) : ChatCompletionChunk :=
  { id := cid
    created := t
    model := model
    object := "chat.completion.chunk".data
    choices :=
      [{ index := 0
         delta := { role := some "assistant".data, content := some [] }
         finish_reason := none }] }

/-- The final JSON chunk of `generate_streaming_response`: empty delta and
finish reason `stop`. -/
def finalChunk (cid : Str) (t : Nat) (model : Str) : ChatCompletionChunk :=
  { id := cid
    created := t
    model := model
    object := "chat.completion.chunk".data
    choices :=
      [{ index := 0
         delta := { role := none, content := none }
         finish_reason := some "stop".data }] }

/-- `generate_streaming_response` of the chat router, as the list of SSE
lines it yields in order (`r` the id random source, `t` the clock read;
the `asyncio.sleep` pacing between word chunks emits nothing and is not
part of the line sequence). -/
def generate_streaming_response (r t : Nat) (request : ChatCompletionRequest)
    (response_content : Str) : List SSELine :=
  let cid := generate_completion_id r
  SSELine.data (firstChunk cid t request.model)
    :: ((addSpaces (pySplitSpace response_content)).map
          (fun d => SSELine.data (wordChunk cid t request.model d)))
    ++ [SSELine.data (finalChunk cid t request.model), SSELine.done]

/-- The JSON frames of an emitted line list (dropping the sentinel). -/
def jsonChunks (lines : List SSELine) : List ChatCompletionChunk :=
  lines.filterMap (fun l => match l with | .data c => some c | .done => none)

/-- The delta contents carried by an emitted line list, in order: for each
JSON frame, the `delta.content` of its single choice (when present). -/
def chatDeltas (lines : List SSELine) : List Str :=
  lines.filterMap (fun l =>
    match l with
    | .data c => c.choices.head?.bind (fun ch => ch.delta.content)
    | .done => none)

/-- Result of the `POST /v1/chat/completions` handler. -/
inductive ChatEndpointResult
  | error (e : HttpError)
  | streaming (lines : List SSELine)
  | completion (response : ChatCompletion)

/-- `create_chat_completion`: validate the model, invoke the strategy once,
then branch on `request.stream`. -/
def create_chat_completion (r t : Nat) (request : ChatCompletionRequest)
    (config : Config) (strategy : ChatCompletionRequest → Str) : ChatEndpointResult :=
  match validate_model request.model config with
  | .error e => .error e
  | .ok _ =>
    let response_content := strategy request
    if request.stream then .streaming (generate_streaming_response r t request response_content)
    else .completion (create_non_streaming_response r t request response_content)

end Chat

namespace Responses

/-! ### `llmock/schemas/responses.py` -/

/-- `role` literal of the input message schemas. -/
inductive Role
  | user | assistant | system | developer
  deriving DecidableEq, Repr

/-- One element of a structured `InputMessage.content` list: an
`InputTextContent` (`ResponseInputTextContent`) carrying text, or an
`InputImageContent` carrying an optional URL. -/
inductive ContentPart
  | inputText (text : Str)
  | inputImage (image_url : Option Str)
  deriving DecidableEq, Repr

/-- One element of a list-shaped `input`: an `InputMessage` (structured
content: a string or a list of typed parts) or a `SimpleInputMessage`
(role plus string content). -/
inductive InputItem
  | message (role : Role) (content : Str ⊕ List ContentPart)
  | simple (role : Role) (content : Str)
  deriving DecidableEq, Repr

/-- `ResponseCreateRequest` (fields the router logic under verification
reads; the echoed-only sampling/bookkeeping fields `max_output_tokens`,
`metadata`, `parallel_tool_calls`, `previous_response_id`, `store`,
`temperature`, `top_p`, `truncation` are omitted from the embedding). -/
structure ResponseCreateRequest where
  model : Str
  input : Str ⊕ List InputItem
  instructions : Option Str
  stream : Bool
  deriving DecidableEq, Repr

/-! ### `llmock/strategies/content_mirror.py`, `ResponseMirrorStrategy` -/

/-- The first `InputTextContent` of a structured content list
(`for content_item in item.content: if isinstance(content_item, InputTextContent): return ...`). -/
def firstTextPart (parts : List ContentPart) : Option Str :=
  (parts.filterMap (fun p => match p with
    | .inputText t => some t
    | .inputImage _ => none)).head?

/-- The loop body of `ResponseMirrorStrategy.generate_response`, already over
the reversed item list.  A `SimpleInputMessage` with role user returns its
content unconditionally (even when empty); an `InputMessage` with role user
returns its string content, or the first text part of its content list —
when the list has no text part the Python `for` finishes without `return`
and the outer loop continues with the next (earlier) item. -/
def mirrorScan : List InputItem → Option Str
  | [] => none
  | item :: rest =>
    match item with
    | .simple role content =>
      if role = Role.user then some content else mirrorScan rest
    | .message role content =>
      if role = Role.user then
        match content with
        | .inl s => some s
        | .inr parts =>
          match firstTextPart parts with
          | some t => some t
          | none => mirrorScan rest
      else mirrorScan rest

/-- `ResponseMirrorStrategy.generate_response`: a plain string input is
returned verbatim; a list input is scanned in reverse for the last user
item; otherwise the fixed default sentinel. -/
def ResponseMirrorStrategy.generate_response (request : ResponseCreateRequest) : Str :=
  match request.input with
  | .inl s => s
  | .inr items =>
    match mirrorScan items.reverse with
    | some s => s
    | none => "No user input provided.".data

/-! ### `llmock/routers/responses.py` -/

/-- `validate_model` of the responses router (same body as the chat one). -/
def validate_model (model_id : Str) (config : Config) : Except HttpError Unit :=
  let model_ids := config.models.map (·.id)
  if model_ids ≠ [] ∧ model_id ∉ model_ids then .error (modelNotFound model_id)
  else .ok ()

/-- `generate_response_id`: `"resp_" + uuid.uuid4().hex`. -/
def generate_response_id (r : Nat) : Str := "resp_".data ++ uuid4hex r

/-- `generate_message_id`: `"msg_" + uuid.uuid4().hex`. -/
def generate_message_id (r : Nat) : Str := "msg_".data ++ uuid4hex r

/-- `estimate_tokens`: `max(1, len(text) // 4)` (identical to the chat
router's). -/
def estimate_tokens (text : Str) : Nat := max 1 (text.length / 4)

/-- The texts one input item contributes to `extract_input_text`: a
`SimpleInputMessage` its content; an `InputMessage` its string content, or
every `InputTextContent` text of its part list. -/
def itemTexts : InputItem → List Str
  | .simple _ content => [content]
  | .message _ (.inl content) => [content]
  | .message _ (.inr parts) =>
    parts.filterMap (fun p => match p with
      | .inputText t => some t
      | .inputImage _ => none)

/-- `extract_input_text`: a string input directly, else the collected texts
joined with single spaces. -/
def extract_input_text (request : ResponseCreateRequest) : Str :=
  match request.input with
  | .inl s => s
  | .inr items => spaceJoin (items.map itemTexts).flatten

/-- The input text used for usage accounting: `extract_input_text`, with
truthy `instructions` prepended as `f"{instructions} {input_text}"`. -/
def full_input_text (request : ResponseCreateRequest) : Str :=
  let input_text := extract_input_text request
  if strTruthy request.instructions then
    request.instructions.getD [] ++ " ".data ++ input_text
  else input_text

/-- `ResponseUsage` (from `openai.types.responses`), with its nested
detail counters. -/
structure ResponseUsage where
  input_tokens : Nat
  cached_tokens : Nat
  output_tokens : Nat
  reasoning_tokens : Nat
  total_tokens : Nat
  deriving DecidableEq, Repr

/-- `ResponseOutputText`: one text content part of an output message
(its `annotations` list is always empty and omitted). -/
structure ResponseOutputText where
  type : Str
  text : Str
  deriving DecidableEq, Repr

/-- `ResponseOutputMessage`: the single output item. -/
structure ResponseOutputMessage where
  type : Str
  id : Str
  status : Str
  role : Str
  content : List ResponseOutputText
  deriving DecidableEq, Repr

/-- `Response`: the non-streaming response object (fields the claims read;
echoed-only optional fields are omitted like on the request). -/
structure Response where
  id : Str
  object : Str
  created_at : Nat
  status : Str
  completed_at : Nat
  instructions : Option Str
  model : Str
  output : List ResponseOutputMessage
  usage : ResponseUsage
  deriving DecidableEq, Repr

/-- `create_response` (`r1`, `r2` the random sources of the response and
message ids, `t` the clock read). -/
def create_response (r1 r2 t : Nat) (request : ResponseCreateRequest)
    (response_content : Str) : Response :=
  let input_tokens := estimate_tokens (full_input_text request)
  let output_tokens := estimate_tokens response_content
  { id := generate_response_id r1
    object := "response".data
    created_at := t
    status := "completed".data
    completed_at := t
    instructions := request.instructions
    model := request.model
    output :=
      [{ type := "message".data
         id := generate_message_id r2
         status := "completed".data
         role := "assistant".data
         content := [{ type := "output_text".data, text := response_content }] }]
    usage :=
      { input_tokens := input_tokens
        cached_tokens := 0
        output_tokens := output_tokens
        reasoning_tokens := 0
        total_tokens := input_tokens + output_tokens } }

/-- One SSE event of the responses streaming generator, with the payload
fields the specification's claims are about (ids, statuses, deltas, texts,
usage).  The constructor order is the emission order of §4.7. -/
inductive RespEvent
  | created (response_id : Str) (created_at : Nat) (status : Str) (model : Str)
  | in_progress (response_id : Str) (created_at : Nat) (status : Str) (model : Str)
  | output_item_added (message_id : Str) (output_index : Nat) (status : Str)
  | content_part_added (message_id : Str) (output_index content_index : Nat) (text : Str)
  | output_text_delta (message_id : Str) (output_index content_index : Nat) (delta : Str)
  | output_text_done (message_id : Str) (output_index content_index : Nat) (text : Str)
  | content_part_done (message_id : Str) (output_index content_index : Nat) (text : Str)
  | output_item_done (message_id : Str) (output_index : Nat) (status : Str) (text : Str)
  | completed (response_id : Str) (created_at completed_at : Nat) (status : Str)
      (model : Str) (text : Str) (usage : ResponseUsage)
  deriving DecidableEq, Repr

/-- The `event:` line (also the JSON `type` field) of an emitted event. -/
def RespEvent.kind : RespEvent → Str
  | .created .. => "response.created".data
  | .in_progress .. => "response.in_progress".data
  | .output_item_added .. => "response.output_item.added".data
  | .content_part_added .. => "response.content_part.added".data
  | .output_text_delta .. => "response.output_text.delta".data
  | .output_text_done .. => "response.output_text.done".data
  | .content_part_done .. => "response.content_part.done".data
  | .output_item_done .. => "response.output_item.done".data
  | .completed .. => "response.completed".data

/-- `generate_streaming_response` of the responses router, as the ordered
list of SSE events it yields (`r1`, `r2` the id random sources, `t` the
clock read, reused for the `completed_at` read of the final event; the
`asyncio.sleep` pacing emits nothing). -/
def generate_streaming_response (r1 r2 t : Nat) (request : ResponseCreateRequest)
    (response_content : Str) : List RespEvent :=
  let response_id := generate_response_id r1
  let message_id := generate_message_id r2
  let input_tokens := estimate_tokens (full_input_text request)
  let output_tokens := estimate_tokens response_content
  [RespEvent.created response_id t "in_progress".data request.model,
   RespEvent.in_progress response_id t "in_progress".data request.model,
   RespEvent.output_item_added message_id 0 "in_progress".data,
   RespEvent.content_part_added message_id 0 0 []]
  ++ (addSpaces (pySplitSpace response_content)).map
       (fun d => RespEvent.output_text_delta message_id 0 0 d)
  ++ [RespEvent.output_text_done message_id 0 0 response_content,
      RespEvent.content_part_done message_id 0 0 response_content,
      RespEvent.output_item_done message_id 0 "completed".data response_content,
      RespEvent.completed response_id t t "completed".data request.model response_content
        { input_tokens := input_tokens
          cached_tokens := 0
          output_tokens := output_tokens
          reasoning_tokens := 0
          total_tokens := input_tokens + output_tokens }]

/-- The event kinds of an emission, in order. -/
def eventKinds (events : List RespEvent) : List Str := events.map RespEvent.kind

/-- The delta payload of an event, when it is an `output_text.delta`. -/
def RespEvent.delta? : RespEvent → Option Str
  | .output_text_delta _ _ _ d => some d
  | _ => none

/-- The text payload of an event, when it is an `output_text.done`. -/
def RespEvent.doneText? : RespEvent → Option Str
  | .output_text_done _ _ _ text => some text
  | _ => none

/-- The output text payload of an event, when it is a `completed`. -/
def RespEvent.completedText? : RespEvent → Option Str
  | .completed _ _ _ _ _ text _ => some text
  | _ => none

/-- The `output_text.delta` payloads of an emission, in order. -/
def respDeltas (events : List RespEvent) : List Str :=
  events.filterMap RespEvent.delta?

/-- The texts carried by `output_text.done` events of an emission. -/
def doneTexts (events : List RespEvent) : List Str :=
  events.filterMap RespEvent.doneText?

/-- The texts carried by `completed` events of an emission. -/
def completedTexts (events : List RespEvent) : List Str :=
  events.filterMap RespEvent.completedText?

/-- Whether the reverse scan of `ResponseMirrorStrategy.generate_response`
stops at this item: a user `SimpleInputMessage`, a user `InputMessage` with
string content, or a user `InputMessage` whose part list has a text part. -/
def itemEligible : InputItem → Bool
  | .simple role _ => role == Role.user
  | .message role (.inl _) => role == Role.user
  | .message role (.inr parts) => role == Role.user && (firstTextPart parts).isSome

/-- The text the scan returns when it stops at this item. -/
def itemMirrorText : InputItem → Str
  | .simple _ content => content
  | .message _ (.inl content) => content
  | .message _ (.inr parts) => (firstTextPart parts).getD []

/-- All the texts the unified mirror could return for this request are
non-empty: a plain string input is non-empty, and every eligible item of a
list input carries non-empty text. -/
def inputTextsNonEmpty (request : ResponseCreateRequest) : Prop :=
  match request.input with
  | .inl s => s ≠ []
  | .inr items => ∀ item ∈ items, itemEligible item = true → itemMirrorText item ≠ []

/-- Result of the `POST /v1/responses` handler. -/
inductive ResponsesEndpointResult
  | error (e : HttpError)
  | streaming (events : List RespEvent)
  | completion (response : Response)

/-- `create_response_endpoint`: validate the model, invoke the strategy
once, then branch on `request.stream`. -/
def create_response_endpoint (r1 r2 t : Nat) (request : ResponseCreateRequest)
    (config : Config) (strategy : ResponseCreateRequest → Str) : ResponsesEndpointResult :=
  match validate_model request.model config with
  | .error e => .error e
  | .ok _ =>
    let response_content := strategy request
    if request.stream then
      .streaming (generate_streaming_response r1 r2 t request response_content)
    else .completion (create_response r1 r2 t request response_content)

end Responses

namespace Spec

/-! ### Specification-side reformulations (§4.2 / §8 of the spec)

These definitions follow the spec's words ("scan turns/items in reverse
order, return the first one with …; otherwise return a fixed default
sentinel"), stated with `List.find?`, to be compared with the recursive
scanners transliterated from the code. -/

/-- The chat mirror per the spec: the first message of the reversed list
with role user and truthy content, else the sentinel. -/
def mirrorChat (request : Chat.ChatCompletionRequest) : Str :=
  match request.messages.reverse.find?
      (fun m => (m.role == Chat.Role.user) && strTruthy m.content) with
  | some m => m.content.getD []
  | none => "No user message provided.".data

/-- The unified mirror as the code actually behaves, in `find?` form: a
plain string input verbatim; else the first eligible item of the reversed
list (its text taken by `itemMirrorText`, empty texts not skipped), else
the sentinel. -/
def mirrorResponses (request : Responses.ResponseCreateRequest) : Str :=
  match request.input with
  | .inl s => s
  | .inr items =>
    match items.reverse.find? Responses.itemEligible with
    | some item => Responses.itemMirrorText item
    | none => "No user input provided.".data

end Spec

/-! ### Concrete sample requests used by the counterexample theorems -/

/-- A unified request whose list input ends in a user item with empty text,
after a user item with text `hi`. -/
def emptyTailRequest : Responses.ResponseCreateRequest :=
  { model := "gpt-4o".data
    input := .inr [.simple .user "hi".data, .simple .user []]
    instructions := none
    stream := false }

/-- A unified request whose input is the plain empty string. -/
def emptyStringRequest : Responses.ResponseCreateRequest :=
  { model := "gpt-4o".data
    input := .inl []
    instructions := none
    stream := false }

/-- A minimal unified streaming request. -/
def sampleStreamRequest : Responses.ResponseCreateRequest :=
  { model := "gpt-4o".data
    input := .inl "x".data
    instructions := none
    stream := true }

/-! ### Bit packings for the identifier-entropy analysis (C9)

`uuid4hex` leaves 122 of the 128 source bits free: bits 0–61 (below the
variant nibble), 64–75 (between variant and version nibble) and 80–127
(above the version nibble).  `pack96` embeds 96 bits into exactly those
free regions, `unpack96` recovers them.  `hcomp` compresses a random
source to the 90 bits of it that the first 24 hex digits (the part
`generate_completion_id` keeps) can carry: big-endian digits 0–23 are the
nibbles of `r / 2^32`, with digit 12 forced and digit 16 reduced to its
low two bits. -/

/-- Embed `x < 2^96` into the uuid4 bit positions not forced by
version/variant: bits 0–61, 64–75 and 80–127. -/
def pack96 (x : Nat) : Nat :=
  x % 2 ^ 62 + 2 ^ 64 * (x / 2 ^ 62 % 2 ^ 12) + 2 ^ 80 * (x / 2 ^ 74)

/-- Left inverse of `pack96`. -/
def unpack96 (y : Nat) : Nat :=
  y % 2 ^ 64 + 2 ^ 62 * (y / 2 ^ 64 % 2 ^ 12) + 2 ^ 74 * (y / 2 ^ 80)

/-- The at-most-90 bits of a random source that survive into
`uuid.uuid4().hex[:24]`: digits 17–23 verbatim, the low two bits of the
variant digit 16, digits 13–15, and digits 0–11; the version digit 12 is
forced and carries nothing. -/
def hcomp (r : Nat) : Nat :=
  let h := r / 2 ^ 32 % 16 ^ 24
  h % 16 ^ 7 + 16 ^ 7 * (h / 16 ^ 7 % 4) + (4 * 16 ^ 7) * (h / 16 ^ 8 % 16 ^ 3)
    + (4 * 16 ^ 10) * (h / 16 ^ 12)

/-! ## Helper lemmas -/

/-- Python `split` never returns an empty list. -/
theorem pySplitSpace_ne_nil (t : Str) : pySplitSpace t ≠ [] := by
  cases t with
  | nil => simp [pySplitSpace]
  | cons c cs =>
    unfold pySplitSpace
    split
    · simp
    · rcases h : pySplitSpace cs with _ | ⟨w, ws⟩ <;> simp [h]

/-- Concatenating the word deltas reconstructs the split text exactly. -/
theorem addSpaces_flatten_split (t : Str) : (addSpaces (pySplitSpace t)).flatten = t := by
  induction t with
  | nil => rfl
  | cons c cs ih =>
    rcases hS : pySplitSpace cs with _ | ⟨w, ws⟩
    · exact absurd hS (pySplitSpace_ne_nil cs)
    · by_cases hc : c = ' '
      · subst hc
        simp [pySplitSpace, hS, addSpaces] at ih ⊢
        exact ih
      · simp [pySplitSpace, hc, hS, addSpaces] at ih ⊢
        exact ih

/-- `addSpaces` keeps the word count. -/
theorem addSpaces_length (l : List Str) : (addSpaces l).length = l.length := by
  cases l <;> simp [addSpaces]

/-- `filterMap` after a map that the filter always rejects is empty. -/
theorem filterMap_comp_none {α β γ : Type} (g : α → β) (h : β → Option γ) (l : List α)
    (hh : ∀ a, h (g a) = none) : List.filterMap (h ∘ g) l = [] := by
  induction l with
  | nil => rfl
  | cons a l ih => simp [Function.comp, hh, ih]

/-- `filterMap` after a constructor-producing map that the filter always
accepts is the identity. -/
theorem filterMap_comp_some {α β : Type} (g : α → β) (h : β → Option α) (l : List α)
    (hh : ∀ a, h (g a) = some a) : List.filterMap (h ∘ g) l = l := by
  induction l with
  | nil => rfl
  | cons a l ih => simp [Function.comp, hh, ih]

/-- The delta contents of a chat streaming emission: the first chunk's empty
content followed by the word deltas. -/
theorem chatDeltas_stream (r t : Nat) (request : Chat.ChatCompletionRequest) (T : Str) :
    Chat.chatDeltas (Chat.generate_streaming_response r t request T)
      = [] :: addSpaces (pySplitSpace T) := by
  simp only [Chat.generate_streaming_response, Chat.chatDeltas, Chat.wordChunk,
    Chat.firstChunk, Chat.finalChunk,
    List.filterMap_cons, List.filterMap_append, List.filterMap_map]
  simp
  exact filterMap_comp_some _ _ _ (fun _ => rfl)

/-- The delta payloads of a responses streaming emission are exactly the
word deltas. -/
theorem respDeltas_stream (r1 r2 t : Nat) (request : Responses.ResponseCreateRequest) (T : Str) :
    Responses.respDeltas (Responses.generate_streaming_response r1 r2 t request T)
      = addSpaces (pySplitSpace T) := by
  simp only [Responses.generate_streaming_response, Responses.respDeltas,
    List.filterMap_cons, List.filterMap_append, List.filterMap_map]
  simp [Responses.RespEvent.delta?]
  exact filterMap_comp_some _ _ _ (fun _ => rfl)

/-! ## Claim theorems -/

/-- C1: for every reply text `T`, splitting on single spaces (keeping empty
segments) and emitting the first word verbatim and every later word with a
single leading space yields deltas whose in-order concatenation is exactly
`T`, for both the chat-variant and the unified-variant streaming
generators. -/
theorem spec_c1_stream_concat (r t : Nat) (reqC : Chat.ChatCompletionRequest)
    (r1 r2 t' : Nat) (reqR : Responses.ResponseCreateRequest) (T : Str) :
    (Chat.chatDeltas (Chat.generate_streaming_response r t reqC T)).flatten = T
    ∧ (Responses.respDeltas (Responses.generate_streaming_response r1 r2 t' reqR T)).flatten = T := by
  constructor
  · rw [chatDeltas_stream]
    simpa using addSpaces_flatten_split T
  · rw [respDeltas_stream]
    exact addSpaces_flatten_split T

/-- C2: in both protocol variants the usage object of the built response
satisfies `total_tokens = input + output`, and both components are at least
1 (unconditionally, hence in particular whenever their source texts are
non-empty). -/
theorem spec_c2_usage_totals (rc tc : Nat) (reqC : Chat.ChatCompletionRequest) (cc : Str)
    (r1 r2 tr : Nat) (reqR : Responses.ResponseCreateRequest) (cr : Str) :
    ((Chat.create_non_streaming_response rc tc reqC cc).usage.total_tokens
        = (Chat.create_non_streaming_response rc tc reqC cc).usage.prompt_tokens
          + (Chat.create_non_streaming_response rc tc reqC cc).usage.completion_tokens
      ∧ 1 ≤ (Chat.create_non_streaming_response rc tc reqC cc).usage.prompt_tokens
      ∧ 1 ≤ (Chat.create_non_streaming_response rc tc reqC cc).usage.completion_tokens)
    ∧ ((Responses.create_response r1 r2 tr reqR cr).usage.total_tokens
        = (Responses.create_response r1 r2 tr reqR cr).usage.input_tokens
          + (Responses.create_response r1 r2 tr reqR cr).usage.output_tokens
      ∧ 1 ≤ (Responses.create_response r1 r2 tr reqR cr).usage.input_tokens
      ∧ 1 ≤ (Responses.create_response r1 r2 tr reqR cr).usage.output_tokens) := by
  refine ⟨⟨rfl, ?_, ?_⟩, rfl, ?_, ?_⟩ <;>
    exact Nat.le_max_left 1 _

/-- C3: model validation accepts every id when the configured list is
empty; with a non-empty list it fails exactly on absent ids, with a 404
carrying type `invalid_request_error`, param `model`, code
`model_not_found` and a message naming the id; present ids succeed; and
the model-not-found error is the only error either router's validation can
return. -/
theorem spec_c3_model_validation (model_id : Str) (config : Config) :
    (config.models = []
      → Chat.validate_model model_id config = .ok ()
        ∧ Responses.validate_model model_id config = .ok ())
    ∧ (config.models ≠ [] → model_id ∉ config.models.map (·.id)
      → Chat.validate_model model_id config = .error (modelNotFound model_id)
        ∧ Responses.validate_model model_id config = .error (modelNotFound model_id))
    ∧ (model_id ∈ config.models.map (·.id)
      → Chat.validate_model model_id config = .ok ()
        ∧ Responses.validate_model model_id config = .ok ())
    ∧ (∀ e, Chat.validate_model model_id config = .error e
            ∨ Responses.validate_model model_id config = .error e
        → e = modelNotFound model_id
          ∧ e.status_code = 404
          ∧ e.error.type = "invalid_request_error".data
          ∧ e.error.param = "model".data
          ∧ e.error.code = "model_not_found".data
          ∧ e.error.message
              = "The model ".data ++ [apos] ++ model_id ++ [apos] ++ " does not exist".data) := by
  unfold Chat.validate_model Responses.validate_model
  refine ⟨?_, ?_, ?_, ?_⟩
  · intro h
    simp [h]
  · intro h1 h2
    rw [if_pos ⟨by simpa using h1, h2⟩]
    exact ⟨rfl, rfl⟩
  · intro h
    rw [if_neg (by simp [h])]
    exact ⟨rfl, rfl⟩
  · intro e he
    have he' : e = modelNotFound model_id := by
      rcases he with he | he <;> {
        by_cases hc : config.models.map (·.id) ≠ [] ∧ model_id ∉ config.models.map (·.id)
        · rw [if_pos hc] at he
          exact (Except.error.inj he).symm
        · rw [if_neg hc] at he
          exact absurd he (by simp)
      }
    subst he'
    exact ⟨rfl, rfl, rfl, rfl, rfl, rfl⟩

/-- C8: `estimate_tokens` of both routers is
`max(1, floor(len(text) / 4))`, the empty string yields 1, and the same
function is applied to the prompt/input text and to the completion/output
text of both protocol variants' usage accounting. -/
theorem spec_c8_estimate_tokens (text : Str) (rc tc : Nat)
    (reqC : Chat.ChatCompletionRequest) (cc : Str)
    (r1 r2 tr : Nat) (reqR : Responses.ResponseCreateRequest) (cr : Str) :
    Chat.estimate_tokens text = max 1 (text.length / 4)
    ∧ Responses.estimate_tokens text = max 1 (text.length / 4)
    ∧ Chat.estimate_tokens [] = 1
    ∧ Responses.estimate_tokens [] = 1
    ∧ (Chat.create_non_streaming_response rc tc reqC cc).usage.prompt_tokens
        = Chat.estimate_tokens (Chat.prompt_text reqC)
    ∧ (Chat.create_non_streaming_response rc tc reqC cc).usage.completion_tokens
        = Chat.estimate_tokens cc
    ∧ (Responses.create_response r1 r2 tr reqR cr).usage.input_tokens
        = Responses.estimate_tokens (Responses.full_input_text reqR)
    ∧ (Responses.create_response r1 r2 tr reqR cr).usage.output_tokens
        = Responses.estimate_tokens cr :=
  ⟨rfl, rfl, rfl, rfl, rfl, rfl, rfl, rfl⟩


/-- The chat reverse scan in `find?` form. -/
theorem chat_mirrorScan_eq_find (l : List Chat.ChatMessageRequest) :
    Chat.mirrorScan l
      = (l.find? (fun m => (m.role == Chat.Role.user) && strTruthy m.content)).map
          (fun m => m.content.getD []) := by
  induction l with
  | nil => rfl
  | cons m rest ih =>
    by_cases h : m.role = Chat.Role.user ∧ strTruthy m.content
    · rw [List.find?_cons_of_pos _ (by simpa using h)]
      simp [Chat.mirrorScan, h]
    · rw [List.find?_cons_of_neg _ (by simpa using h)]
      rw [← ih]
      simp [Chat.mirrorScan, h]

/-- The unified reverse scan in `find?` form: it stops exactly at the
eligible items and returns their `itemMirrorText`. -/
theorem resp_mirrorScan_eq_find (l : List Responses.InputItem) :
    Responses.mirrorScan l
      = (l.find? Responses.itemEligible).map Responses.itemMirrorText := by
  induction l with
  | nil => rfl
  | cons item rest ih =>
    cases item with
    | simple role content =>
      by_cases h : role = Responses.Role.user
      · subst h
        rw [List.find?_cons_of_pos _ (by simp [Responses.itemEligible])]
        simp [Responses.mirrorScan, Responses.itemMirrorText]
      · rw [List.find?_cons_of_neg _ (by simp [Responses.itemEligible, h])]
        rw [← ih]
        simp [Responses.mirrorScan, h]
    | message role content =>
      by_cases h : role = Responses.Role.user
      · subst h
        cases content with
        | inl s =>
          rw [List.find?_cons_of_pos _ (by simp [Responses.itemEligible])]
          simp [Responses.mirrorScan, Responses.itemMirrorText]
        | inr parts =>
          cases hf : Responses.firstTextPart parts with
          | some t =>
            rw [List.find?_cons_of_pos _ (by simp [Responses.itemEligible, hf])]
            simp [Responses.mirrorScan, hf, Responses.itemMirrorText]
          | none =>
            rw [List.find?_cons_of_neg _ (by simp [Responses.itemEligible, hf])]
            rw [← ih]
            simp [Responses.mirrorScan, hf]
      · cases content with
        | inl s =>
          rw [List.find?_cons_of_neg _ (by simp [Responses.itemEligible, h])]
          rw [← ih]
          simp [Responses.mirrorScan, h]
        | inr parts =>
          rw [List.find?_cons_of_neg _ (by simp [Responses.itemEligible, h])]
          rw [← ih]
          simp [Responses.mirrorScan, h]

/-- C4 counterexample: on the list input
`[user:"hi", user:""]` the unified mirror strategy returns the empty
string of the later user item instead of skipping it and returning `hi`
as the claim states. -/
theorem spec_c4_counterexample :
    Responses.ResponseMirrorStrategy.generate_response emptyTailRequest = ([] : Str)
    ∧ ("hi".data : Str) ≠ [] := by
  exact ⟨rfl, by decide⟩

/-- C4 (amended): the chat mirror strategy scans messages in reverse and
returns the first user message with non-empty content, else the sentinel;
the unified mirror strategy returns a plain string input verbatim and
otherwise scans items in reverse, returning the text of the first user
item that yields one (string contents verbatim even when empty — empty
texts are not skipped — and, for part-list contents, the first text part,
items without any text part being skipped), else the sentinel. -/
theorem spec_c4_mirror_scan (reqC : Chat.ChatCompletionRequest)
    (reqR : Responses.ResponseCreateRequest) :
    Chat.ChatMirrorStrategy.generate_response reqC = Spec.mirrorChat reqC
    ∧ Responses.ResponseMirrorStrategy.generate_response reqR = Spec.mirrorResponses reqR := by
  constructor
  · unfold Chat.ChatMirrorStrategy.generate_response Spec.mirrorChat
    rw [chat_mirrorScan_eq_find]
    cases reqC.messages.reverse.find?
        (fun m => (m.role == Chat.Role.user) && strTruthy m.content) <;> rfl
  · obtain ⟨mR, inputR, insR, stR⟩ := reqR
    cases inputR with
    | inl s => rfl
    | inr items =>
      simp only [Responses.ResponseMirrorStrategy.generate_response, Spec.mirrorResponses]
      rw [resp_mirrorScan_eq_find]
      cases items.reverse.find? Responses.itemEligible <;> rfl

/-- C5 counterexample: on the plain empty-string input the unified mirror
strategy returns the empty string, so the strategy output is not non-empty
for all inputs. -/
theorem spec_c5_counterexample :
    Responses.ResponseMirrorStrategy.generate_response emptyStringRequest = ([] : Str) := rfl

/-- C5 (amended): the chat mirror strategy's output is never empty (the
content it mirrors is truthy and the sentinel is non-empty); the unified
mirror strategy's output is non-empty provided every text it could mirror
is non-empty (a plain string input is non-empty and every eligible list
item carries non-empty text) — without that proviso it can return the
mirrored empty string. -/
theorem spec_c5_reply_nonempty (reqC : Chat.ChatCompletionRequest)
    (reqR : Responses.ResponseCreateRequest) :
    Chat.ChatMirrorStrategy.generate_response reqC ≠ []
    ∧ (Responses.inputTextsNonEmpty reqR
        → Responses.ResponseMirrorStrategy.generate_response reqR ≠ []) := by
  constructor
  · unfold Chat.ChatMirrorStrategy.generate_response
    rw [chat_mirrorScan_eq_find]
    cases hf : reqC.messages.reverse.find?
        (fun m => (m.role == Chat.Role.user) && strTruthy m.content) with
    | none => simp
    | some m =>
      have hp := List.find?_some hf
      have hc : strTruthy m.content = true := by
        simp only [Bool.and_eq_true] at hp
        exact hp.2
      intro habs
      have habs' : m.content.getD [] = [] := habs
      cases hmc : m.content with
      | none => rw [hmc] at hc; simp [strTruthy] at hc
      | some s =>
        rw [hmc] at hc
        rw [hmc] at habs'
        simp only [Option.getD_some] at habs'
        subst habs'
        simp [strTruthy] at hc
  · intro hNE
    obtain ⟨mR, inputR, insR, stR⟩ := reqR
    cases inputR with
    | inl s =>
      have hs : s ≠ [] := hNE
      exact hs
    | inr items =>
      have hNE' : ∀ it ∈ items,
          Responses.itemEligible it = true → Responses.itemMirrorText it ≠ [] := hNE
      simp only [Responses.ResponseMirrorStrategy.generate_response]
      rw [resp_mirrorScan_eq_find]
      cases hf : items.reverse.find? Responses.itemEligible with
      | none => simp
      | some item =>
        have hel := List.find?_some hf
        have hmem : item ∈ items := by
          have := List.mem_of_find?_eq_some hf
          simpa using this
        simpa using hNE' item hmem hel


/-- C6 counterexample: for the empty reply the unified streaming generator
still emits one `output_text.delta` event (carrying the single empty word
of `"".split(" ") == [""]`), not zero as the claim states for an empty
reply. -/
theorem spec_c6_counterexample :
    (Responses.eventKinds
        (Responses.generate_streaming_response 0 0 0 sampleStreamRequest [])).count
      "response.output_text.delta".data = 1
    ∧ (1 : Nat) ≠ 0 := by
  exact ⟨by decide, by decide⟩

/-- C6 (amended): the unified streaming generator emits event kinds exactly
in the fixed 9-kind order, with one delta event per word of the split
reply; the word count is always at least 1, so even an empty or
single-word reply produces exactly one delta event (never zero), with all
framing events still occurring. -/
theorem spec_c6_event_order (r1 r2 t : Nat) (reqR : Responses.ResponseCreateRequest) (T : Str) :
    Responses.eventKinds (Responses.generate_streaming_response r1 r2 t reqR T)
      = ["response.created".data, "response.in_progress".data,
          "response.output_item.added".data, "response.content_part.added".data]
        ++ List.replicate (wordCount T) "response.output_text.delta".data
        ++ ["response.output_text.done".data, "response.content_part.done".data,
            "response.output_item.done".data, "response.completed".data]
    ∧ 1 ≤ wordCount T := by
  constructor
  · simp only [Responses.eventKinds, Responses.generate_streaming_response,
      List.map_append, List.map_cons, List.map_nil, List.map_map, wordCount]
    rw [← addSpaces_length (pySplitSpace T), ← List.map_const' (addSpaces (pySplitSpace T))]
    rfl
  · exact List.length_pos.mpr (pySplitSpace_ne_nil T)

/-- The chat streaming line list, reshaped as a concatenation ending in the
sentinel line. -/
theorem chat_stream_shape (r t : Nat) (req : Chat.ChatCompletionRequest) (T : Str) :
    Chat.generate_streaming_response r t req T
      = (Chat.SSELine.data (Chat.firstChunk (Chat.generate_completion_id r) t req.model)
          :: (addSpaces (pySplitSpace T)).map
              (fun d => Chat.SSELine.data (Chat.wordChunk (Chat.generate_completion_id r) t req.model d))
          ++ [Chat.SSELine.data (Chat.finalChunk (Chat.generate_completion_id r) t req.model)])
        ++ [Chat.SSELine.done] := by
  simp [Chat.generate_streaming_response]

/-- `filterMap` of a projection that accepts every mapped constructor. -/
theorem filterMap_data_map (f : Str → Chat.ChatCompletionChunk) (dl : List Str) :
    List.filterMap
        (fun l => match l with | Chat.SSELine.data c => some c | Chat.SSELine.done => none)
        (dl.map (fun d => Chat.SSELine.data (f d)))
      = dl.map f := by
  induction dl with
  | nil => rfl
  | cons a l ih => simp [ih]

/-- The JSON frames of a chat streaming emission: the role-announcing first
chunk, one word chunk per word, and the terminal chunk. -/
theorem chat_jsonChunks_stream (r t : Nat) (req : Chat.ChatCompletionRequest) (T : Str) :
    Chat.jsonChunks (Chat.generate_streaming_response r t req T)
      = (Chat.firstChunk (Chat.generate_completion_id r) t req.model
          :: (addSpaces (pySplitSpace T)).map
              (Chat.wordChunk (Chat.generate_completion_id r) t req.model))
        ++ [Chat.finalChunk (Chat.generate_completion_id r) t req.model] := by
  unfold Chat.jsonChunks
  rw [chat_stream_shape]
  simp only [List.filterMap_append, List.filterMap_cons, List.filterMap_nil]
  rw [filterMap_data_map]
  simp

/-- C7: the chat streaming generator emits exactly `2 + wordCount` JSON
frames; the first carries `delta.role = "assistant"` with empty content,
the last JSON frame carries an empty delta (no role, no content) and
finish reason `stop`, and the final emitted line is the literal
end-of-stream sentinel, which is not a JSON frame. -/
theorem spec_c7_chat_frames (r t : Nat) (req : Chat.ChatCompletionRequest) (T : Str) :
    (Chat.jsonChunks (Chat.generate_streaming_response r t req T)).length = 2 + wordCount T
    ∧ ((Chat.jsonChunks (Chat.generate_streaming_response r t req T)).head?.map
          (fun c0 => c0.choices.map (fun ch => (ch.delta.role, ch.delta.content))))
        = some [(some "assistant".data, some ([] : Str))]
    ∧ ((Chat.jsonChunks (Chat.generate_streaming_response r t req T)).getLast?.map
          (fun cl => cl.choices.map
            (fun ch => (ch.delta.role, ch.delta.content, ch.finish_reason))))
        = some [(none, none, some "stop".data)]
    ∧ (Chat.generate_streaming_response r t req T).getLast? = some Chat.SSELine.done
    ∧ ∀ l ∈ (Chat.generate_streaming_response r t req T).dropLast,
        ∃ c, l = Chat.SSELine.data c := by
  refine ⟨?_, ?_, ?_, ?_, ?_⟩
  · rw [chat_jsonChunks_stream]
    simp [addSpaces_length, wordCount]
    omega
  · rw [chat_jsonChunks_stream]
    simp [Chat.firstChunk]
  · rw [chat_jsonChunks_stream, List.getLast?_concat]
    simp [Chat.finalChunk]
  · rw [chat_stream_shape, List.getLast?_concat]
  · rw [chat_stream_shape, List.dropLast_concat]
    intro l hl
    rcases List.mem_cons.mp hl with h | h
    · exact ⟨_, h⟩
    · rcases List.mem_append.mp h with h2 | h2
      · rcases List.mem_map.mp h2 with ⟨d, _, rfl⟩
        exact ⟨_, rfl⟩
      · rcases List.mem_singleton.mp h2 with rfl
        exact ⟨_, rfl⟩


/-- The single `output_text.done` text of a responses streaming emission is
the full reply. -/
theorem doneTexts_stream (r1 r2 t : Nat) (reqR : Responses.ResponseCreateRequest) (T : Str) :
    Responses.doneTexts (Responses.generate_streaming_response r1 r2 t reqR T) = [T] := by
  simp only [Responses.doneTexts, Responses.generate_streaming_response,
    List.filterMap_cons, List.filterMap_append, List.filterMap_map]
  simp [Responses.RespEvent.doneText?, filterMap_comp_none
    (fun d => Responses.RespEvent.output_text_delta (Responses.generate_message_id r2) 0 0 d)
    Responses.RespEvent.doneText? (addSpaces (pySplitSpace T)) (fun _ => rfl)]

/-- The single `completed` text of a responses streaming emission is the
full reply. -/
theorem completedTexts_stream (r1 r2 t : Nat) (reqR : Responses.ResponseCreateRequest) (T : Str) :
    Responses.completedTexts (Responses.generate_streaming_response r1 r2 t reqR T) = [T] := by
  simp only [Responses.completedTexts, Responses.generate_streaming_response,
    List.filterMap_cons, List.filterMap_append, List.filterMap_map]
  simp [Responses.RespEvent.completedText?, filterMap_comp_none
    (fun d => Responses.RespEvent.output_text_delta (Responses.generate_message_id r2) 0 0 d)
    Responses.RespEvent.completedText? (addSpaces (pySplitSpace T)) (fun _ => rfl)]

/-- C10: for every request and every strategy, the reply delivered over the
streaming path equals the reply of the non-streaming path: both handlers
obtain a single strategy output and pass that identical string to either
builder, so the chat delta concatenation, the unified `output_text.done`
and `completed` texts, and the non-streaming response bodies all carry
exactly the strategy output. -/
theorem spec_c10_stream_nonstream_agree (r t : Nat) (reqC : Chat.ChatCompletionRequest)
    (config : Config) (stratC : Chat.ChatCompletionRequest → Str)
    (r1 r2 t' : Nat) (reqR : Responses.ResponseCreateRequest)
    (stratR : Responses.ResponseCreateRequest → Str) :
    (match Chat.create_chat_completion r t reqC config stratC with
      | .error _ => True
      | .streaming lines => (Chat.chatDeltas lines).flatten = stratC reqC
      | .completion resp => resp.choices.map (fun ch => ch.message.content) = [stratC reqC])
    ∧ (match Responses.create_response_endpoint r1 r2 t' reqR config stratR with
      | .error _ => True
      | .streaming events =>
          (Responses.respDeltas events).flatten = stratR reqR
          ∧ Responses.doneTexts events = [stratR reqR]
          ∧ Responses.completedTexts events = [stratR reqR]
      | .completion resp =>
          resp.output.map (fun m => m.content.map (fun c => c.text)) = [[stratR reqR]]) := by
  constructor
  · cases hv : Chat.validate_model reqC.model config with
    | error e => simp [Chat.create_chat_completion, hv]
    | ok u =>
      cases hs : reqC.stream with
      | true =>
        simp only [Chat.create_chat_completion, hv, hs, if_true]
        rw [chatDeltas_stream]
        simpa using addSpaces_flatten_split (stratC reqC)
      | false =>
        simp only [Chat.create_chat_completion, hv, hs, Bool.false_eq_true, if_false]
        rfl
  · cases hv : Responses.validate_model reqR.model config with
    | error e => simp [Responses.create_response_endpoint, hv]
    | ok u =>
      cases hs : reqR.stream with
      | true =>
        simp only [Responses.create_response_endpoint, hv, hs, if_true]
        refine ⟨?_, doneTexts_stream r1 r2 t' reqR (stratR reqR),
          completedTexts_stream r1 r2 t' reqR (stratR reqR)⟩
        rw [respDeltas_stream]
        exact addSpaces_flatten_split (stratR reqR)
      | false =>
        simp only [Responses.create_response_endpoint, hv, hs, Bool.false_eq_true, if_false]
        rfl


/-! ## Identifier entropy (C9) -/

/-- `unpack96` recovers the bits `pack96` placed. -/
theorem unpack96_pack96 (x : Nat) : unpack96 (pack96 x) = x := by
  unfold pack96 unpack96
  have e1 : x % 2 ^ 62 + 2 ^ 64 * (x / 2 ^ 62 % 2 ^ 12) + 2 ^ 80 * (x / 2 ^ 74)
      = x % 2 ^ 62 + 2 ^ 64 * (x / 2 ^ 62 % 2 ^ 12 + 2 ^ 16 * (x / 2 ^ 74)) := by ring
  have h1 : (x % 2 ^ 62 + 2 ^ 64 * (x / 2 ^ 62 % 2 ^ 12) + 2 ^ 80 * (x / 2 ^ 74)) % 2 ^ 64
      = x % 2 ^ 62 := by
    rw [e1, Nat.add_mul_mod_self_left]
    exact Nat.mod_eq_of_lt (by omega)
  have h2 : (x % 2 ^ 62 + 2 ^ 64 * (x / 2 ^ 62 % 2 ^ 12) + 2 ^ 80 * (x / 2 ^ 74)) / 2 ^ 64
      = x / 2 ^ 62 % 2 ^ 12 + 2 ^ 16 * (x / 2 ^ 74) := by
    rw [e1, Nat.add_mul_div_left _ _ (by norm_num), Nat.div_eq_of_lt (by omega)]
    omega
  have h3 : (x / 2 ^ 62 % 2 ^ 12 + 2 ^ 16 * (x / 2 ^ 74)) % 2 ^ 12 = x / 2 ^ 62 % 2 ^ 12 := by
    rw [show x / 2 ^ 62 % 2 ^ 12 + 2 ^ 16 * (x / 2 ^ 74)
        = x / 2 ^ 62 % 2 ^ 12 + 2 ^ 12 * (2 ^ 4 * (x / 2 ^ 74)) by ring, Nat.add_mul_mod_self_left]
    exact Nat.mod_eq_of_lt (by omega)
  have h4 : (x % 2 ^ 62 + 2 ^ 64 * (x / 2 ^ 62 % 2 ^ 12) + 2 ^ 80 * (x / 2 ^ 74)) / 2 ^ 80
      = x / 2 ^ 74 := by
    rw [show x % 2 ^ 62 + 2 ^ 64 * (x / 2 ^ 62 % 2 ^ 12) + 2 ^ 80 * (x / 2 ^ 74)
        = (x % 2 ^ 62 + 2 ^ 64 * (x / 2 ^ 62 % 2 ^ 12)) + 2 ^ 80 * (x / 2 ^ 74) by ring,
      Nat.add_mul_div_left _ _ (by norm_num), Nat.div_eq_of_lt (by omega)]
    omega
  rw [h1, h2, h3, h4]
  omega

/-- Digit `k` of `m % 16^w` equals digit `k` of `m`, for `k < w`. -/
theorem digit_of_mod (m w k : Nat) (hk : k < w) :
    (m % 16 ^ w) / 16 ^ k % 16 = m / 16 ^ k % 16 := by
  have h1 : (16 : Nat) ^ w = 16 ^ k * 16 ^ (w - k) := by
    rw [← pow_add]
    congr 1
    omega
  rw [h1, Nat.mod_mul_right_div_self]
  exact Nat.mod_mod_of_dvd _ (dvd_pow_self 16 (by omega))

/-- Numbers agreeing modulo `16^w` share the digits below `w`. -/
theorem digit_eq_of_mod_eq {a b : Nat} (w k : Nat) (hab : a % 16 ^ w = b % 16 ^ w)
    (hk : k < w) : a / 16 ^ k % 16 = b / 16 ^ k % 16 := by
  rw [← digit_of_mod a w k hk, ← digit_of_mod b w k hk, hab]

/-- `pack96` leaves the version nibble (digit 12) zero. -/
theorem pack96_nib12 (x : Nat) : nib (pack96 x) 12 = 0 := by
  unfold nib
  norm_num
  have h2 : pack96 x / 2 ^ 76 = 16 * (x / 2 ^ 74) := by
    rw [show pack96 x = (x % 2 ^ 62 + 2 ^ 64 * (x / 2 ^ 62 % 2 ^ 12))
        + 2 ^ 76 * (16 * (x / 2 ^ 74)) by unfold pack96; ring,
      Nat.add_mul_div_left _ _ (by norm_num), Nat.div_eq_of_lt (by omega)]
    omega
  rw [show (75557863725914323419136 : Nat) = 2 ^ 76 by norm_num, h2]
  omega

/-- `pack96` leaves the high two bits of the variant nibble (digit 16) zero. -/
theorem pack96_nib16_lt (x : Nat) : nib (pack96 x) 16 < 4 := by
  unfold pack96 nib
  norm_num
  omega

/-- `pack96` of a 96-bit value fits the 128-bit random source. -/
theorem pack96_lt (x : Nat) (hx : x < 2 ^ 96) : pack96 x < 2 ^ 128 := by
  unfold pack96
  omega

/-- Any nibble `i < 24` of `r` is the corresponding digit of
`r / 2^32 % 16^24`. -/
theorem nib_eq_hdigit (m i : Nat) (hi : i < 24) :
    nib m i = (m / 2 ^ 32 % 16 ^ 24) / 16 ^ (23 - i) % 16 := by
  unfold nib
  rw [digit_of_mod (m / 2 ^ 32) 24 (23 - i) (by omega)]
  rw [Nat.div_div_eq_div_mul]
  rw [show (2 : Nat) ^ 32 = 16 ^ 8 by norm_num, ← pow_add]
  have h8 : 8 + (23 - i) = 31 - i := by omega
  rw [h8]

/-- `hcomp` determines every hex digit of `uuid.uuid4().hex[:24]`. -/
theorem hcomp_nibs {r r' : Nat} (h : hcomp r = hcomp r') :
    ∀ i < 24, uuidNib r i = uuidNib r' i := by
  obtain ⟨p1, p2, p3, p4⟩ :
      (r / 2 ^ 32 % 16 ^ 24) % 16 ^ 7 = (r' / 2 ^ 32 % 16 ^ 24) % 16 ^ 7
      ∧ (r / 2 ^ 32 % 16 ^ 24) / 16 ^ 7 % 4 = (r' / 2 ^ 32 % 16 ^ 24) / 16 ^ 7 % 4
      ∧ (r / 2 ^ 32 % 16 ^ 24) / 16 ^ 8 % 16 ^ 3 = (r' / 2 ^ 32 % 16 ^ 24) / 16 ^ 8 % 16 ^ 3
      ∧ (r / 2 ^ 32 % 16 ^ 24) / 16 ^ 12 = (r' / 2 ^ 32 % 16 ^ 24) / 16 ^ 12 := by
    simp only [hcomp] at h
    refine ⟨?_, ?_, ?_, ?_⟩ <;> omega
  intro i hi
  by_cases h12 : i = 12
  · subst h12
    rfl
  by_cases h16 : i = 16
  · subst h16
    show 8 + nib r 16 % 4 = 8 + nib r' 16 % 4
    rw [nib_eq_hdigit r 16 (by omega), nib_eq_hdigit r' 16 (by omega)]
    norm_num
    omega
  · simp only [uuidNib, if_neg h12, if_neg h16]
    rw [nib_eq_hdigit r i hi, nib_eq_hdigit r' i hi]
    by_cases hk7 : 23 - i < 7
    · exact digit_eq_of_mod_eq 7 (23 - i) p1 hk7
    · by_cases hk11 : 23 - i < 11
      · have hsplit : ∀ m : Nat, m / 16 ^ (23 - i) = (m / 16 ^ 8) / 16 ^ (23 - i - 8) := by
          intro m
          rw [Nat.div_div_eq_div_mul, ← pow_add]
          congr 2
          omega
        rw [hsplit, hsplit]
        exact digit_eq_of_mod_eq 3 (23 - i - 8) p3 (by omega)
      · have hsplit : ∀ m : Nat, m / 16 ^ (23 - i) = (m / 16 ^ 12) / 16 ^ (23 - i - 12) := by
          intro m
          rw [Nat.div_div_eq_div_mul, ← pow_add]
          congr 2
          omega
        rw [hsplit, hsplit, p4]

/-- `hexChar` is injective on digit values. -/
theorem hexChar_inj : ∀ a < 16, ∀ b < 16, hexChar a = hexChar b → a = b := by decide

/-- Every forced hex digit value is a digit. -/
theorem uuidNib_lt (r i : Nat) : uuidNib r i < 16 := by
  unfold uuidNib nib
  split
  · omega
  · split
    · omega
    · exact Nat.mod_lt _ (by omega)

/-- Equal maps over `range n` agree pointwise below `n`. -/
theorem map_range_pointwise {α : Type} (f g : Nat → α) (n : Nat)
    (h : (List.range n).map f = (List.range n).map g) : ∀ i < n, f i = g i := by
  intro i hi
  have h1 := congrArg (fun l => l[i]?) h
  simpa [List.getElem?_range, hi] using h1

/-- Two numbers below `16^w` with equal base-16 digits are equal. -/
theorem eq_of_lownibs : ∀ (w : Nat) (a b : Nat), a < 16 ^ w → b < 16 ^ w →
    (∀ k, k < w → a / 16 ^ k % 16 = b / 16 ^ k % 16) → a = b := by
  intro w
  induction w with
  | zero =>
    intro a b ha hb _
    simp only [pow_zero] at ha hb
    omega
  | succ w ih =>
    intro a b ha hb h
    have h0 := h 0 (by omega)
    simp only [pow_zero, Nat.div_one] at h0
    have key : ∀ k, k < w → (a / 16) / 16 ^ k % 16 = (b / 16) / 16 ^ k % 16 := by
      intro k hk
      have h' := h (k + 1) (by omega)
      rw [Nat.div_div_eq_div_mul, Nat.div_div_eq_div_mul,
        show 16 * 16 ^ k = 16 ^ (k + 1) by rw [pow_succ]; ring]
      exact h'
    have hq := ih (a / 16) (b / 16)
      (by rw [Nat.div_lt_iff_lt_mul (by norm_num)]; calc a < 16 ^ (w + 1) := ha
            _ = 16 ^ w * 16 := pow_succ 16 w)
      (by rw [Nat.div_lt_iff_lt_mul (by norm_num)]; calc b < 16 ^ (w + 1) := hb
            _ = 16 ^ w * 16 := pow_succ 16 w)
      key
    omega

/-- Two 128-bit values with equal big-endian nibbles are equal. -/
theorem eq_of_nibs (a b : Nat) (ha : a < 16 ^ 32) (hb : b < 16 ^ 32)
    (h : ∀ i < 32, nib a i = nib b i) : a = b := by
  apply eq_of_lownibs 32 a b ha hb
  intro k hk
  have hx := h (31 - k) (by omega)
  unfold nib at hx
  rwa [show 31 - (31 - k) = k by omega] at hx

/-- Equal uuid hex strings force equal (forced) nibbles. -/
theorem uuid4hex_nibs {r r' : Nat} (h : uuid4hex r = uuid4hex r') :
    ∀ i < 32, uuidNib r i = uuidNib r' i := by
  intro i hi
  exact hexChar_inj _ (uuidNib_lt r i) _ (uuidNib_lt r' i)
    (map_range_pointwise _ _ 32 h i hi)

/-- On packed values uuid hex is injective: the forced nibbles carry
nothing, and `pack96` keeps them clear. -/
theorem uuid4hex_pack_inj (x y : Nat) (hx : x < 2 ^ 96) (hy : y < 2 ^ 96)
    (h : uuid4hex (pack96 x) = uuid4hex (pack96 y)) : pack96 x = pack96 y := by
  have hn := uuid4hex_nibs h
  apply eq_of_nibs _ _
    (by rw [show (16 : Nat) ^ 32 = 2 ^ 128 by norm_num]; exact pack96_lt x hx)
    (by rw [show (16 : Nat) ^ 32 = 2 ^ 128 by norm_num]; exact pack96_lt y hy)
  intro i hi
  by_cases h12 : i = 12
  · subst h12
    rw [pack96_nib12 x, pack96_nib12 y]
  by_cases h16 : i = 16
  · subst h16
    have h1 := hn 16 (by omega)
    simp [uuidNib] at h1
    have ha := pack96_nib16_lt x
    have hb := pack96_nib16_lt y
    omega
  · have h1 := hn i hi
    simp only [uuidNib, if_neg h12, if_neg h16] at h1
    exact h1

/-- Random sources with equal `hcomp` yield the same chat completion id. -/
theorem hcomp_determines {r r' : Nat} (h : hcomp r = hcomp r') :
    Chat.generate_completion_id r = Chat.generate_completion_id r' := by
  unfold Chat.generate_completion_id uuid4hex
  congr 1
  rw [← List.map_take, ← List.map_take, List.take_range]
  apply List.map_congr_left
  intro i hi
  rw [List.mem_range, lt_min_iff] at hi
  rw [hcomp_nibs h i hi.1]

/-- `hcomp` takes fewer than `2^90` values. -/
theorem hcomp_lt (r : Nat) : hcomp r < 2 ^ 90 := by
  unfold hcomp
  norm_num
  omega

/-- Any set on which the chat completion id generator is injective has at
most `2^90` elements: the id keeps only 24 hex digits of a uuid4, of which
the version digit and the top variant bits are fixed. -/
theorem chatId_card_le (D : Finset ℕ)
    (hinj : Set.InjOn (fun r => Chat.generate_completion_id r) ↑D) : D.card ≤ 2 ^ 90 := by
  have hcompinj : Set.InjOn hcomp ↑D := by
    intro a ha b hb hab
    exact hinj ha hb (hcomp_determines hab)
  have h1 : (D.image hcomp).card = D.card := Finset.card_image_of_injOn hcompinj
  have h2 : D.image hcomp ⊆ Finset.range (2 ^ 90) := by
    intro y hy
    rcases Finset.mem_image.mp hy with ⟨a, _, rfl⟩
    exact Finset.mem_range.mpr (hcomp_lt a)
  calc D.card = (D.image hcomp).card := h1.symm
    _ ≤ (Finset.range (2 ^ 90)).card := Finset.card_le_card h2
    _ = 2 ^ 90 := Finset.card_range _

/-- `pack96` is injective on 96-bit values. -/
theorem pack96_injOn : Set.InjOn pack96 ↑(Finset.range (2 ^ 96)) := by
  intro a _ b _ hab
  have h := congrArg unpack96 hab
  rwa [unpack96_pack96, unpack96_pack96] at h

/-- C9 counterexample: the chat completion id generator is injective on no
domain of `2^96` random sources — `uuid.uuid4().hex[:24]` carries only 90
random bits (6 of its 96 bits are the fixed uuid4 version/variant bits), so
at most `2^90` distinct chat ids exist. -/
theorem spec_c9_counterexample :
    ¬ ∃ D : Finset ℕ, 2 ^ 96 ≤ D.card
        ∧ Set.InjOn (fun r => Chat.generate_completion_id r) ↑D := by
  rintro ⟨D, hcard, hinj⟩
  have h1 := chatId_card_le D hinj
  have h2 : (2 : ℕ) ^ 90 < 2 ^ 96 := by norm_num
  omega

/-- C9 (amended): every generated identifier is a fixed literal prefix
(`chatcmpl-`, `resp_`, `msg_`, pairwise distinct) followed by a random
part; the unified response and message id generators are injective on a
domain of `2^96` 128-bit random sources (their random part keeps all 122
free uuid4 bits), while the chat completion id generator — which keeps
only the first 24 hex digits, 90 free bits — is injective on no domain of
more than `2^90` values. -/
theorem spec_c9_identifier_entropy :
    ((∀ r, (Chat.generate_completion_id r).take 9 = "chatcmpl-".data)
      ∧ (∀ r, (Responses.generate_response_id r).take 5 = "resp_".data)
      ∧ (∀ r, (Responses.generate_message_id r).take 4 = "msg_".data)
      ∧ "chatcmpl-".data ≠ "resp_".data ∧ "chatcmpl-".data ≠ "msg_".data
      ∧ "resp_".data ≠ "msg_".data)
    ∧ (∃ D : Finset ℕ, (∀ r ∈ D, r < 2 ^ 128) ∧ 2 ^ 96 ≤ D.card
        ∧ Set.InjOn (fun r => Responses.generate_response_id r) ↑D
        ∧ Set.InjOn (fun r => Responses.generate_message_id r) ↑D)
    ∧ (∀ D : Finset ℕ, Set.InjOn (fun r => Chat.generate_completion_id r) ↑D
        → D.card ≤ 2 ^ 90) := by
  refine ⟨⟨?_, ?_, ?_, by decide, by decide, by decide⟩, ?_, chatId_card_le⟩
  · intro r
    rw [Chat.generate_completion_id, List.take_left' (by rfl)]
  · intro r
    rw [Responses.generate_response_id, List.take_left' (by rfl)]
  · intro r
    rw [Responses.generate_message_id, List.take_left' (by rfl)]
  · refine ⟨(Finset.range (2 ^ 96)).image pack96, ?_, ?_, ?_, ?_⟩
    · intro r hr
      rcases Finset.mem_image.mp hr with ⟨x, hx, rfl⟩
      exact pack96_lt x (Finset.mem_range.mp hx)
    · rw [Finset.card_image_of_injOn pack96_injOn, Finset.card_range]
    · intro a ha b hb hab
      rcases Finset.mem_image.mp (Finset.mem_coe.mp ha) with ⟨x, hx, rfl⟩
      rcases Finset.mem_image.mp (Finset.mem_coe.mp hb) with ⟨y, hy, rfl⟩
      have huu : uuid4hex (pack96 x) = uuid4hex (pack96 y) :=
        List.append_cancel_left hab
      exact uuid4hex_pack_inj x y (Finset.mem_range.mp hx) (Finset.mem_range.mp hy) huu
    · intro a ha b hb hab
      rcases Finset.mem_image.mp (Finset.mem_coe.mp ha) with ⟨x, hx, rfl⟩
      rcases Finset.mem_image.mp (Finset.mem_coe.mp hb) with ⟨y, hy, rfl⟩
      have huu : uuid4hex (pack96 x) = uuid4hex (pack96 y) :=
        List.append_cancel_left hab
      exact uuid4hex_pack_inj x y (Finset.mem_range.mp hx) (Finset.mem_range.mp hy) huu

end LLMock
